import Mathlib

/-!
# Verification of the `bridge-aws` S3 connector against its specification

This file is a shallow embedding, in Lean 4, of the parts of
`src/s3/s3.py` (class `S3`) that the specification's claims are about, together
with theorems settling each claim.

Modelling conventions:

* A Python `str` is modelled as its sequence of characters, `PyStr := List Char`
  (Python strings are sequences of code points; every string operation used by
  the source --- `startswith`, `endswith`, `in`, slicing, `split`, `join`,
  `strip` --- is defined below by structural recursion, mirroring Python
  semantics).
* A bucket's contents are modelled as the list of its object keys in backend
  listing order.
* The remote backend (`boto3` client) is an external collaborator; its calls
  are modelled either by their documented semantics over the key list
  (`list_objects_v2` on a single page), by an abstract page-fetch function
  (pagination), or by oracles for operations whose success or failure the
  claims quantify over (copy / head / delete during `move_file`, bucket
  deletion, bucket accessibility).
* Functions that raise Python exceptions are embedded as `Except String` with
  the exception message (or exception type) as the error value.
* Python generators are lazy: *calling* a generator function executes none of
  its body.  Where that laziness is claim-relevant (`list_objects`), invocation
  and first-pull are modelled as two separate functions.
-/

deriving instance DecidableEq for Except

/-- A Python string, modelled as its sequence of characters. -/
abbrev PyStr := List Char

/-- Python `s.startswith(pat)`. -/
def pyStartsWith (s pat : PyStr) : Bool := pat.isPrefixOf s

/-- Python `s.endswith(pat)`. -/
def pyEndsWith (s pat : PyStr) : Bool := pat.isSuffixOf s

/-- Python `pat in s` (substring containment). -/
def pyContains (s pat : PyStr) : Bool := s.tails.any (fun t => pat.isPrefixOf t)

/-- The characters removed by Python `str.strip()` (ASCII whitespace; Python
additionally strips some Unicode space characters, none of which occur in the
claims). -/
def pyWhitespaceChar (c : Char) : Bool :=
  c == ' ' || c == '\t' || c == '\n' || c == '\r' || c == '\x0b' || c == '\x0c'

/-- Python `s.strip()`: remove leading and trailing whitespace. -/
def pyStrip (s : PyStr) : PyStr :=
  ((s.dropWhile pyWhitespaceChar).reverse.dropWhile pyWhitespaceChar).reverse

/-- Python `s.split("/")`. -/
def splitSlash : PyStr → List PyStr
  | [] => [[]]
  | c :: cs =>
    if c = '/' then [] :: splitSlash cs
    else
      match splitSlash cs with
      | [] => [[c]]
      | s :: ss => (c :: s) :: ss

/-- Python `"/".join(parts)`. -/
def joinSlash : List PyStr → PyStr
  | [] => []
  | [s] => s
  | s :: s' :: ss => s ++ '/' :: joinSlash (s' :: ss)

/-- The literal `"s3://"` of the source. -/
def s3Scheme : PyStr := ['s', '3', ':', '/', '/']

/-- Embedding of the static method `S3.decompose_s3_uri` (src/s3/s3.py:1534-1556).
Empty input yields `("", "")`; otherwise the link is stripped, required to start
with `s3://`, the bucket is the segment before the first `/` after the scheme
and the key is the rest rejoined with `/`.  (A Python `split` result is never
empty, so the `[0]` index is total; `headD` mirrors that.) -/
def decompose_s3_uri (s3_link : PyStr) : Except String (PyStr × PyStr) :=
  if s3_link.isEmpty then .ok ([], [])
  else
    let stripped := pyStrip s3_link
    if s3Scheme.isPrefixOf stripped then
      let parts := splitSlash (stripped.drop 5)
      .ok (parts.headD [], joinSlash parts.tail)
    else .error "is not a valid s3 link"

/-- Embedding of the static method `S3.compose_s3_uri` (src/s3/s3.py:1558-1569):
the f-string `s3://{bucket}/{key}`. -/
def compose_s3_uri (bucket key : PyStr) : PyStr := s3Scheme ++ bucket ++ '/' :: key

/-- Embedding of the static method `S3.is_file` (src/s3/s3.py:1584-1595):
`not key.endswith("/")`. -/
def is_file (key : PyStr) : Bool := !(pyEndsWith key ['/'])

-- Sanity examples (concrete behaviour of the codec, matching the Python).
example : decompose_s3_uri "s3://test-bucket/sub-folder/".toList
    = .ok ("test-bucket".toList, "sub-folder/".toList) := by decide
example : decompose_s3_uri [] = .ok ([], []) := by decide
example : decompose_s3_uri "badlink".toList = .error "is not a valid s3 link" := by decide
example : is_file "a_folder/".toList = false := by decide
example : is_file "not_a_folder".toList = true := by decide

/-! ## Backend listing semantics (single page)

`s3.list_objects_v2(Bucket, Prefix, Delimiter)` over a bucket whose keys are
`keys` (in backend order), when the whole result fits in one page:

* `Contents` holds every key under the prefix whose remainder (after the
  prefix) does not contain the delimiter; an empty delimiter disables grouping
  so `Contents` is every key under the prefix;
* `CommonPrefixes` holds, for every key under the prefix whose remainder does
  contain the delimiter, the prefix extended to and including the first
  delimiter occurrence, deduplicated keeping first occurrences. -/

/-- Keys of the `Contents` field of a single-page `list_objects_v2` reply. -/
def s3Contents (keys : List PyStr) (pathPre delim : PyStr) : List PyStr :=
  keys.filter (fun k =>
    pyStartsWith k pathPre &&
      (delim.isEmpty || !(pyContains (k.drop pathPre.length) delim)))

/-- Cut a key remainder at (and including) the first occurrence of the
delimiter; `none` when the delimiter does not occur. -/
def cutAtDelim (delim : PyStr) : PyStr → Option PyStr
  | [] => none
  | c :: cs =>
    if delim.isPrefixOf (c :: cs) then some delim
    else (cutAtDelim delim cs).map (fun r => c :: r)

/-- Order-preserving deduplication (keep the first occurrence). -/
def dedupFirst (seen : List PyStr) : List PyStr → List PyStr
  | [] => []
  | x :: xs => if x ∈ seen then dedupFirst seen xs else x :: dedupFirst (x :: seen) xs

/-- `Prefix` fields of the `CommonPrefixes` of a single-page `list_objects_v2`
reply. An empty delimiter yields no grouping at all. -/
def s3CommonPre (keys : List PyStr) (pathPre delim : PyStr) : List PyStr :=
  if delim.isEmpty then []
  else
    dedupFirst []
      (keys.filterMap (fun k =>
        if pyStartsWith k pathPre then
          (cutAtDelim delim (k.drop pathPre.length)).map (fun cut => pathPre ++ cut)
        else none))

/-- The `filters` dict `{'starts_with': ..., 'ends_with': ...}`; a missing or
empty entry is falsy in Python, modelled by the empty string. -/
structure Filters where
  starts_with : PyStr := []
  ends_with : PyStr := []
deriving DecidableEq, Repr

/-- Embedding of `S3.list_folders` (src/s3/s3.py:235-283): one
`list_objects_v2` call (no pagination), keeping each common prefix unless a
non-empty `starts_with` filter is set and `folder.startswith(sw)` and
`folder.startswith(path + sw)` do not BOTH hold (the source skips on
`not folder.startswith(sw) or not folder.startswith(path + sw)`), and unless a
non-empty `ends_with` filter is set and neither `folder[:-1]` nor `folder`
ends with it. -/
def list_folders (keys : List PyStr) (path : PyStr) (filt : Filters)
    (delim : PyStr) : List PyStr :=
  (s3CommonPre keys path delim).filter (fun folder =>
    (filt.starts_with.isEmpty ||
      (pyStartsWith folder filt.starts_with &&
        pyStartsWith folder (path ++ filt.starts_with))) &&
    (filt.ends_with.isEmpty ||
      (pyEndsWith folder.dropLast filt.ends_with ||
        pyEndsWith folder filt.ends_with)))

/-- One step of the `list_files` generator body over the listed keys.  For a
key that is not folder-like, the source evaluates
`filters.get["starts_with"]` whenever a non-empty `starts_with` filter is set:
subscripting the bound method `filters.get` raises `TypeError` at that point
(src/s3/s3.py:314-317). -/
def list_files_go (filt : Filters) : List PyStr → Except String (List PyStr)
  | [] => .ok []
  | k :: ks =>
    if !(pyEndsWith k ['/']) then
      if !filt.starts_with.isEmpty then
        .error "TypeError: 'builtin_function_or_method' object is not subscriptable"
      else if !filt.ends_with.isEmpty && !(pyEndsWith k filt.ends_with) then
        list_files_go filt ks
      else
        (list_files_go filt ks).map (fun rest => k :: rest)
    else list_files_go filt ks

/-- Embedding of `S3.list_files` (src/s3/s3.py:285-323): iterates the
`list_objects` generator (here: the single-page contents) and yields non-folder
keys surviving the filters, fully consumed. -/
def list_files (keys : List PyStr) (path : PyStr) (filt : Filters)
    (delim : PyStr) : Except String (List PyStr) :=
  list_files_go filt (s3Contents keys path delim)

/-- Embedding of `S3.list_folder_contents` (src/s3/s3.py:382-429): folders
first (from `list_folders`, which is called WITHOUT the filters, then
re-filtered with plain `startswith`/`endswith` against the filter terms), then
the files from `list_files` (filters passed through). -/
def list_folder_contents (keys : List PyStr) (path : PyStr) (filt : Filters)
    (delim : PyStr) : Except String (List PyStr) :=
  let folders := (list_folders keys path {} delim).filter (fun folder =>
    (filt.starts_with.isEmpty || pyStartsWith folder filt.starts_with) &&
    (filt.ends_with.isEmpty || pyEndsWith folder filt.ends_with))
  (list_files keys path filt delim).map (fun files => folders ++ files)

/-- Embedding of `S3.check_folder` (src/s3/s3.py:553-574): for a
separator-terminated path, list the WHOLE container recursively
(`list_folder_contents` at the root with empty delimiter) and return
`[path for prefix in contents if path in prefix]` as the `found_in` value;
otherwise raise `Not a folder`. -/
def check_folder (keys : List PyStr) (path : PyStr) : Except String (List PyStr) :=
  if pyEndsWith path ['/'] then
    (list_folder_contents keys [] {} []).map (fun contents =>
      (contents.filter (fun entry => pyContains entry path)).map (fun _ => path))
  else .error "Not a folder"

-- Sanity examples against the deterministic scenario of the test suite
-- (bucket contents `example.json`, `sub-folder/inner_file.txt`).
example :
    list_folders ["example.json".toList, "sub-folder/inner_file.txt".toList]
      [] {} ['/'] = ["sub-folder/".toList] := by decide
example :
    list_files ["example.json".toList, "sub-folder/inner_file.txt".toList]
      [] {} ['/'] = .ok ["example.json".toList] := by decide
example :
    list_files ["example.json".toList, "sub-folder/inner_file.txt".toList]
      "sub-folder/".toList {} ['/'] = .ok ["sub-folder/inner_file.txt".toList] := by decide
example :
    list_folder_contents ["example.json".toList, "sub-folder/inner_file.txt".toList]
      [] {} ['/'] = .ok ["sub-folder/".toList, "example.json".toList] := by decide
example :
    check_folder ["example.json".toList, "sub-folder/inner_file.txt".toList]
      "sub-folder/".toList = .ok ["sub-folder/".toList] := by decide
example :
    check_folder ["example.json".toList, "sub-folder/inner_file.txt".toList]
      "not-a-folder".toList = .error "Not a folder" := by decide

/-! ## Claim C8: the compose/decompose round trip -/

theorem splitSlash_ne_nil : ∀ l : PyStr, splitSlash l ≠ []
  | [] => by simp [splitSlash]
  | c :: cs => by
    simp only [splitSlash]
    split
    · simp
    · cases h : splitSlash cs <;> simp

theorem splitSlash_append (b k : PyStr) (hb : '/' ∉ b) :
    splitSlash (b ++ '/' :: k) = b :: splitSlash k := by
  induction b with
  | nil => simp [splitSlash]
  | cons c cs ih =>
    have hc : c ≠ '/' := fun h => hb (h ▸ List.mem_cons_self c cs)
    have hcs : '/' ∉ cs := fun h => hb (List.mem_cons_of_mem c h)
    simp only [List.cons_append, splitSlash, if_neg hc]
    rw [show cs.append ('/' :: k) = cs ++ '/' :: k from rfl, ih hcs]

theorem joinSlash_splitSlash : ∀ k : PyStr, joinSlash (splitSlash k) = k
  | [] => rfl
  | c :: cs => by
    have ih := joinSlash_splitSlash cs
    by_cases hc : c = '/'
    · subst hc
      simp only [splitSlash, if_pos rfl]
      cases h : splitSlash cs with
      | nil => exact absurd h (splitSlash_ne_nil cs)
      | cons s ss =>
        rw [h] at ih
        simpa [joinSlash] using ih
    · simp only [splitSlash, if_neg hc]
      cases h : splitSlash cs with
      | nil => exact absurd h (splitSlash_ne_nil cs)
      | cons s ss =>
        rw [h] at ih
        cases ss with
        | nil => simpa [joinSlash] using ih
        | cons s' ss' => simpa [joinSlash] using ih

theorem pyStrip_eq_self {l : PyStr}
    (hhd : ∀ c, l.head? = some c → pyWhitespaceChar c = false)
    (hlast : ∀ c, l.getLast? = some c → pyWhitespaceChar c = false) :
    pyStrip l = l := by
  unfold pyStrip
  cases l with
  | nil => rfl
  | cons a t =>
    have h1 : List.dropWhile pyWhitespaceChar (a :: t) = a :: t :=
      List.dropWhile_cons_of_neg (by simp [hhd a rfl])
    cases hr : (a :: t).reverse with
    | nil => exact absurd (congrArg List.length hr) (by simp)
    | cons b r =>
      have hb : (a :: t).getLast? = some b := by
        rw [← List.head?_reverse, hr]; rfl
      have h2 : List.dropWhile pyWhitespaceChar ((a :: t).reverse) = (a :: t).reverse := by
        rw [hr]
        exact List.dropWhile_cons_of_neg (by simp [hlast b hb])
      rw [h1, h2, List.reverse_reverse]

/-- C8, as stated, is false: a container name containing the separator `/`
does not round-trip.  Concretely, composing bucket `a/b` with key `c` (a key
with no strippable characters) and decomposing yields `("a", "b/c")`. -/
theorem compose_decompose_cx :
    decompose_s3_uri (compose_s3_uri "a/b".toList "c".toList)
        = .ok ("a".toList, "b/c".toList) ∧
    ("c".toList : PyStr).all (fun c => !pyWhitespaceChar c) = true ∧
    (("a".toList : PyStr), ("b/c".toList : PyStr)) ≠ ("a/b".toList, "c".toList) := by
  decide

/-- C8 (amended): for every container name containing no `/` separator and
every key containing no characters that whitespace trimming would strip,
`decompose_s3_uri (compose_s3_uri bucket key) = (bucket, key)`. -/
theorem compose_decompose_amended (bucket key : PyStr)
    (hb : '/' ∉ bucket)
    (hk : ∀ c ∈ key, pyWhitespaceChar c = false) :
    decompose_s3_uri (compose_s3_uri bucket key) = .ok (bucket, key) := by
  have hform : compose_s3_uri bucket key
      = 's' :: '3' :: ':' :: '/' :: '/' :: (bucket ++ '/' :: key) := by
    simp [compose_s3_uri, s3Scheme]
  have hstrip : pyStrip (compose_s3_uri bucket key) = compose_s3_uri bucket key := by
    apply pyStrip_eq_self
    · intro c hc
      rw [hform] at hc
      cases hc
      decide
    · intro c hc
      have hc2 : (('/' :: key : PyStr)).getLast? = some c := by
        rw [hform] at hc
        have : ('s' :: '3' :: ':' :: '/' :: '/' :: (bucket ++ '/' :: key) : PyStr)
            = ('s' :: '3' :: ':' :: '/' :: '/' :: bucket) ++ '/' :: key := by simp
        rw [this, List.getLast?_append_cons] at hc
        exact hc
      cases key with
      | nil =>
        cases hc2
        decide
      | cons d ds =>
        rw [List.getLast?_cons_cons] at hc2
        obtain ⟨hne, hcl⟩ := List.mem_getLast?_eq_getLast hc2
        exact hk c (hcl ▸ List.getLast_mem hne)
  have hne : (compose_s3_uri bucket key).isEmpty = false := by
    rw [hform]; rfl
  have hpre : s3Scheme.isPrefixOf (compose_s3_uri bucket key) = true := by
    rw [hform]
    simp [s3Scheme, List.isPrefixOf]
  have hdrop : (compose_s3_uri bucket key).drop 5 = bucket ++ '/' :: key := by
    rw [hform]; rfl
  have hsplit : splitSlash ((compose_s3_uri bucket key).drop 5)
      = bucket :: splitSlash key := by
    rw [hdrop]; exact splitSlash_append bucket key hb
  simp only [decompose_s3_uri, hne, Bool.false_eq_true, if_false, hstrip, hpre,
    if_true, hsplit, List.headD_cons, List.tail_cons, joinSlash_splitSlash]

/-- Witness for C8 (amended) at the test suite's bucket and key. -/
theorem compose_decompose_amended_witness :
    ('/' ∉ ("test-bucket".toList : PyStr)) ∧
    decompose_s3_uri (compose_s3_uri "test-bucket".toList "example.json".toList)
      = .ok ("test-bucket".toList, "example.json".toList) :=
  ⟨by decide, compose_decompose_amended "test-bucket".toList "example.json".toList
    (by decide) (by decide)⟩

/-! ## Claim C6: `check_folder` -/

theorem s3Contents_root (keys : List PyStr) : s3Contents keys [] [] = keys := by
  unfold s3Contents
  exact List.filter_eq_self.mpr (fun a _ => by simp [pyStartsWith])

theorem list_files_go_empty (l : List PyStr) :
    list_files_go {} l = .ok (l.filter (fun k => is_file k)) := by
  induction l with
  | nil => rfl
  | cons k ks ih =>
    by_cases hk : pyEndsWith k ['/'] <;>
      simp [list_files_go, List.filter_cons, hk, is_file, ih, Except.map]

/-- The fully recursive whole-container listing performed by `check_folder`:
with an empty delimiter there are no common prefixes, so the contents are
exactly the non-folder-marker keys. -/
theorem list_folder_contents_root (keys : List PyStr) :
    list_folder_contents keys [] {} [] = .ok (keys.filter (fun k => is_file k)) := by
  simp [list_folder_contents, list_folders, s3CommonPre, list_files,
    s3Contents_root, list_files_go_empty, Except.map]

theorem filter_map_const_eq_replicate (p : PyStr → Bool) (a : PyStr) :
    ∀ l : List PyStr, (l.filter p).map (fun _ => a) = List.replicate (l.countP p) a
  | [] => rfl
  | x :: xs => by
    by_cases hx : p x <;>
      simp [List.filter_cons, List.countP_cons, hx, List.replicate_succ,
        filter_map_const_eq_replicate p a xs]

/-- C6, as stated, is false: the `found_in` list is not the subset of listed
entries containing the path — the source's comprehension
`[path for prefix in ... if path in prefix]` yields the *argument* `path` for
every match, not the matching entry.  On a container holding exactly
`sub-folder/inner_file.txt`, the subset of entries containing `"sub-folder/"`
is `["sub-folder/inner_file.txt"]`, yet `check_folder` returns
`["sub-folder/"]`. -/
theorem check_folder_cx :
    check_folder ["sub-folder/inner_file.txt".toList] "sub-folder/".toList
        = .ok ["sub-folder/".toList] ∧
    (["sub-folder/inner_file.txt".toList] : List PyStr).filter
        (fun entry => pyContains entry "sub-folder/".toList)
      = ["sub-folder/inner_file.txt".toList] ∧
    (["sub-folder/".toList] : List PyStr) ≠ ["sub-folder/inner_file.txt".toList] := by
  decide

/-- C6 (amended): for a path not ending in the separator, `check_folder` fails
with `Not a folder`; for a separator-terminated path it performs a fully
recursive (empty-delimiter) listing of the whole container and returns, as
`found_in`, one copy of `path` itself per listed entry that contains `path`
as a substring (so `check_folder("sub-folder/")` on a container containing
`sub-folder/inner_file.txt` indeed returns a list containing
`"sub-folder/"`). -/
theorem check_folder_amended (keys : List PyStr) (path : PyStr) :
    (pyEndsWith path ['/'] = false → check_folder keys path = .error "Not a folder") ∧
    (pyEndsWith path ['/'] = true →
      check_folder keys path =
        .ok (List.replicate
          ((keys.filter (fun k => is_file k)).countP
            (fun entry => pyContains entry path))
          path)) := by
  constructor
  · intro h
    simp [check_folder, h]
  · intro h
    simp [check_folder, h, list_folder_contents_root, Except.map,
      filter_map_const_eq_replicate, List.countP_eq_length_filter]

/-- Witness for C6 (amended) at the test suite's container. -/
theorem check_folder_amended_witness :
    pyEndsWith "sub-folder/".toList ['/'] = true ∧
    check_folder ["example.json".toList, "sub-folder/inner_file.txt".toList]
        "sub-folder/".toList
      = .ok (List.replicate
          (((["example.json".toList, "sub-folder/inner_file.txt".toList] : List PyStr).filter
              (fun k => is_file k)).countP
            (fun entry => pyContains entry "sub-folder/".toList))
          "sub-folder/".toList) :=
  ⟨by decide, (check_folder_amended _ _).2 (by decide)⟩

/-! ## Claim C5: `starts_with` / `ends_with` filter matching -/

/-- C5 fails on the code, in both listing functions.  (i) In `list_files`,
whenever a non-empty `starts_with` filter is set and a non-folder key is
scanned, the source subscripts the bound method (`filters.get["starts_with"]`,
src/s3/s3.py:315) and raises `TypeError` — the call does not complete, let
alone keep keys by the claimed disjunction.  (ii) In `list_folders`, the
source skips a folder on `not folder.startswith(sw) or not
folder.startswith(path + sw)` (src/s3/s3.py:268-271), keeping it only when
BOTH forms match — the claimed disjunction would keep `base/docs/` for filter
term `base/docs` under path `base/`, but the code drops it. -/
theorem list_filters_bug :
    list_files ["alpha.txt".toList] [] { starts_with := "al".toList } ['/']
      = .error "TypeError: 'builtin_function_or_method' object is not subscriptable" ∧
    list_folders ["base/docs/f.txt".toList] "base/".toList
        { starts_with := "base/docs".toList } ['/'] = [] ∧
    list_folders ["base/docs/f.txt".toList] "base/".toList {} ['/']
      = ["base/docs/".toList] ∧
    pyStartsWith "base/docs/".toList "base/docs".toList = true := by
  decide

/-! ## Claim C1: `copy_folder` -/

/-- The folder-copy loop.  The source REASSIGNS its `copy_to` variable inside
the loop (src/s3/s3.py:1300-1304):

    copy_to = (f"{copy_to}/{file[preamble_length:]}"
               if not copy_to.endswith("/")
               else f"{copy_to}{file[preamble_length:]}")

so each iteration's destination is built from the PREVIOUS iteration's
destination, not from the original `copy_to` argument. -/
def copy_folder_go (preLen : Nat) (cur_to : PyStr) :
    List PyStr → List (PyStr × PyStr)
  | [] => []
  | f :: fs =>
    let next_to :=
      if !(pyEndsWith cur_to ['/']) then cur_to ++ '/' :: f.drop preLen
      else cur_to ++ f.drop preLen
    (f, next_to) :: copy_folder_go preLen next_to fs

/-- Embedding of `S3.copy_folder` (src/s3/s3.py:1257-1313): recursively list
`copy_from` (empty delimiter) and perform one single-object copy per entry;
the result records the (source, destination) pair of each copy in order. -/
def copy_folder (keys : List PyStr) (copy_from copy_to : PyStr) :
    Except String (List (PyStr × PyStr)) :=
  (list_folder_contents keys copy_from {} []).map
    (copy_folder_go copy_from.length copy_to)

/-- C1 is a code bug: on a folder with two entries, the second entry is NOT
copied to `to ++ (entry key minus the from prefix)`.  With keys
`sub-folder/a.txt`, `sub-folder/b.txt` and
`copy_folder("sub-folder/", "other-sub-folder/")`, the first copy goes to
`other-sub-folder/a.txt` but the second goes to
`other-sub-folder/a.txt/b.txt` (the accumulated previous destination), not to
`other-sub-folder/b.txt`. -/
theorem copy_folder_bug :
    copy_folder ["sub-folder/a.txt".toList, "sub-folder/b.txt".toList]
        "sub-folder/".toList "other-sub-folder/".toList
      = .ok [("sub-folder/a.txt".toList, "other-sub-folder/a.txt".toList),
             ("sub-folder/b.txt".toList, "other-sub-folder/a.txt/b.txt".toList)] ∧
    ("other-sub-folder/a.txt/b.txt".toList : PyStr)
      ≠ "other-sub-folder/".toList
          ++ ("sub-folder/b.txt".toList.drop ("sub-folder/".toList).length) := by
  decide

/-! ## Claim C2: batch transfer outcome recording -/

/-- Embedding of `S3.copy_file` (src/s3/s3.py:1056-1107) against a bucket
modelled by its key list: the underlying `s3.copy` succeeds exactly when the
source object exists, and any failure is re-raised as `FileNotFoundError`. -/
def copy_file (keys : List PyStr) (src dst : PyStr) : Except String PyStr :=
  if src ∈ keys then .ok dst else .error "FileNotFoundError: Failed to copy object."

/-- Embedding of `S3.copy_files` (src/s3/s3.py:1148-1200).  All tasks are
submitted to the pool and all of them run; the result-collection loop then
executes `results[future.id] = future.result()`, and `future.result()`
RE-RAISES the stored exception of a failed task, so the first failed future
reached aborts the collection and the exception escapes the call.  (The
completion order of `as_completed` is abstracted as submission order; whether
the call raises does not depend on that order.)  `upload_files`
(src/s3/s3.py:974-1020) and `download_to_files` (src/s3/s3.py:819-858) use
the identical submit/collect pattern. -/
def copy_files (keys : List PyStr) (fromPre toPre : PyStr) :
    List (PyStr × PyStr) → Except String (List ((PyStr × PyStr) × PyStr))
  | [] => .ok []
  | (f, t) :: rest =>
    match copy_file keys (fromPre ++ f) (toPre ++ t) with
    | .error e => .error e
    | .ok r => (copy_files keys fromPre toPre rest).map (fun m => ((f, t), r) :: m)

/-- C2 is a code bug: with K = 2 tasks of which the second fails (its source
object does not exist), the batch call raises `FileNotFoundError` instead of
returning a mapping with a recorded failure — no outcome map of size K is
produced.  (When every task succeeds, the full mapping is returned, second
conjunct.)  The docstrings of `copy_files`/`upload_files` promise a
`{(from, to): True | False}` mapping, which the code can never produce for a
failing task. -/
theorem copy_files_raises :
    copy_files ["multi_copy/ex1.json".toList] "multi_copy/".toList "new_path/".toList
        [("ex1.json".toList, "ex1_copied.json".toList),
         ("missing.json".toList, "missing_copied.json".toList)]
      = .error "FileNotFoundError: Failed to copy object." ∧
    copy_files ["a.txt".toList, "b.txt".toList] [] []
        [("a.txt".toList, "x.txt".toList), ("b.txt".toList, "y.txt".toList)]
      = .ok [(("a.txt".toList, "x.txt".toList), "x.txt".toList),
             (("b.txt".toList, "y.txt".toList), "y.txt".toList)] := by
  decide

/-! ## Claim C3: `move_file` -/

/-- A call issued to the backend during `move_file`, in issue order. -/
inductive S3Call where
  | copy (src dst : PyStr)
  | head (key : PyStr)
  | delete (key : PyStr)
deriving DecidableEq, Repr

/-- Backend behaviour oracle for `move_file`: whether the single-object copy
raises, and whether the subsequent `head_object` on a key succeeds.  (The two
are independent: under eventual consistency or a concurrent deletion the head
can miss an object whose copy just returned.) -/
structure Oracle where
  copyOk : PyStr → PyStr → Bool
  headOk : PyStr → Bool

/-- `S3.copy_file` as used by `move_file`, with its backend call trace. -/
def copy_file_t (o : Oracle) (src dst : PyStr) : Except String Unit × List S3Call :=
  (if o.copyOk src dst then .ok ()
   else .error "FileNotFoundError: Failed to copy object.",
   [.copy src dst])

/-- Embedding of `S3.key_exists` (src/s3/s3.py:1517-1532): a `head_object`
call whose exceptions are swallowed into `False`; never raises. -/
def key_exists (o : Oracle) (key : PyStr) : Bool × List S3Call :=
  (o.headOk key, [.head key])

/-- `S3.delete_file` (src/s3/s3.py:1331-1352): one `delete_object` call. -/
def delete_file (key : PyStr) : List S3Call := [.delete key]

/-- Embedding of `S3.move_file` (src/s3/s3.py:1109-1146): copy, then
`key_exists` on the destination, then delete the source and return the
composed URI only if the check succeeded; a copy failure is re-raised as
`FileNotFoundError`.  When the check fails the function falls off the end of
the `if` and returns Python `None` — no exception.  The second component is
the backend call trace. -/
def move_file (o : Oracle) (bucket src dst : PyStr) :
    Except String (Option PyStr) × List S3Call :=
  match copy_file_t o src dst with
  | (.error _, tr) => (.error "FileNotFoundError: Failed to move object.", tr)
  | (.ok _, tr) =>
    let he := key_exists o dst
    if he.1 then
      (.ok (some (compose_s3_uri bucket dst)), tr ++ he.2 ++ delete_file src)
    else
      (.ok none, tr ++ he.2)

/-- C3, as stated, is false in its failure clause: when the copy succeeds but
the destination does not verify present, `move_file` does not fail with any
`MoveVerificationFailed` error (no such error exists in the source) — it
returns `None` without raising.  The source is indeed left intact (no delete
call in the trace). -/
theorem move_file_cx :
    move_file ⟨fun _ _ => true, fun _ => false⟩
        "test-bucket".toList "a.txt".toList "b.txt".toList
      = (.ok none, [S3Call.copy "a.txt".toList "b.txt".toList,
                    S3Call.head "b.txt".toList]) ∧
    (.ok (none : Option PyStr) : Except String (Option PyStr))
      ≠ .error "MoveVerificationFailed" := by
  decide

/-- C3 (amended): `move_file` first copies `a` to `b`, then verifies `b` via a
head call, and deletes `a` only if that verification succeeds; if verification
fails it returns `None` (without raising, and without any
`MoveVerificationFailed` error) and the source `a` is left intact — the source
is never deleted before the destination is confirmed present, as the call
traces show. -/
theorem move_file_amended (o : Oracle) (bucket src dst : PyStr) :
    (o.copyOk src dst = false →
      move_file o bucket src dst
        = (.error "FileNotFoundError: Failed to move object.", [.copy src dst])) ∧
    (o.copyOk src dst = true → o.headOk dst = false →
      move_file o bucket src dst = (.ok none, [.copy src dst, .head dst])) ∧
    (o.copyOk src dst = true → o.headOk dst = true →
      move_file o bucket src dst
        = (.ok (some (compose_s3_uri bucket dst)),
           [.copy src dst, .head dst, .delete src])) := by
  refine ⟨fun hc => ?_, fun hc hh => ?_, fun hc hh => ?_⟩
  · simp [move_file, copy_file_t, key_exists, delete_file, hc]
  · simp [move_file, copy_file_t, key_exists, delete_file, hc, hh]
  · simp [move_file, copy_file_t, key_exists, delete_file, hc, hh]

/-- Witness for C3 (amended): the all-succeed branch at a concrete oracle. -/
theorem move_file_amended_witness :
    (⟨fun _ _ => true, fun _ => true⟩ : Oracle).copyOk "a.txt".toList "b.txt".toList
        = true ∧
    move_file ⟨fun _ _ => true, fun _ => true⟩
        "test-bucket".toList "a.txt".toList "b.txt".toList
      = (.ok (some (compose_s3_uri "test-bucket".toList "b.txt".toList)),
         [.copy "a.txt".toList "b.txt".toList, .head "b.txt".toList,
          .delete "a.txt".toList]) :=
  ⟨rfl, (move_file_amended ⟨fun _ _ => true, fun _ => true⟩
    "test-bucket".toList "a.txt".toList "b.txt".toList).2.2 rfl rfl⟩

/-! ## Claims C9 and C10: the default context -/

/-- The connector's default context: the `_bucket` and `_path_prefix` fields
of the `S3` object. -/
structure Conn where
  bucketVal : PyStr
  cwdVal : PyStr
deriving DecidableEq, Repr

/-- Embedding of the `bucket` property setter (src/s3/s3.py:67-83).  The
docstring promises an accessibility check (`head_bucket`) that raises
`NoSuchBucket`/`ClientError`, but the check was removed from the body
("NOTE: the head_bucket check was removed because it caused some issues with
building on the pipeline"): the setter only assigns.  `accessible` models the
backend's answer to the promised check; the body never consults it. -/
def bucket_set (_accessible : PyStr → Bool) (c : Conn) (bucket_name : PyStr) : Conn :=
  { c with bucketVal := bucket_name }

/-- Embedding of the `cwd` property setter (src/s3/s3.py:94-108): assigns the
new working prefix only if `path in check_folder(path)["found_in"]`, raising
otherwise; `check_folder` itself raises on a non-separator-terminated path.
`keys` are the keys of the currently-set default bucket. -/
def cwd_set (keys : List PyStr) (c : Conn) (path : PyStr) : Except String Conn :=
  match check_folder keys path with
  | .error e => .error e
  | .ok found =>
    if path ∈ found then .ok { c with cwdVal := path }
    else .error "Path not found in current bucket"

/-- C9 is a code bug in its container half: assigning the default container
performs NO validation — with a backend on which every bucket is inaccessible,
`bucket = "non-existant-bucket"` still changes the default (and the setter
cannot fail: its result type is a plain state, not an exception).  The test
suite (`test_bucket`) expects `ClientError` here, and the docstring documents
the check.  The prefix half of the claim does hold: the `cwd` setter rejects a
prefix that does not resolve in the current bucket and accepts one that does
(conjuncts two and three, mirroring `test_cwd`). -/
theorem bucket_set_cx :
    bucket_set (fun _ => false) ⟨"test-bucket".toList, []⟩ "non-existant-bucket".toList
      = ⟨"non-existant-bucket".toList, []⟩ ∧
    cwd_set ["sub-folder/inner_file.txt".toList] ⟨"test-bucket".toList, []⟩
        "notavalidpath/".toList
      = .error "Path not found in current bucket" ∧
    cwd_set ["sub-folder/inner_file.txt".toList] ⟨"test-bucket".toList, []⟩
        "sub-folder/".toList
      = .ok ⟨"test-bucket".toList, "sub-folder/".toList⟩ := by
  decide

/-- Embedding of `S3.delete_bucket` (src/s3/s3.py:167-191): issue the backend
delete for `bucket or self.bucket`; once it returns, clear the default-bucket
field exactly when the argument was empty or named the current default.  A
backend exception propagates with the state unchanged. -/
def delete_bucket (backend : PyStr → Except String Unit) (c : Conn)
    (bucket : PyStr) : Except String Conn :=
  match backend (if bucket.isEmpty then c.bucketVal else bucket) with
  | .error e => .error e
  | .ok _ =>
    .ok (if bucket.isEmpty || bucket == c.bucketVal
         then { c with bucketVal := [] } else c)

/-- C10: whenever the backend delete returns, `delete_bucket` resets the
default-bucket field to the empty string exactly when its argument is empty or
equals the current default, leaves it unchanged otherwise, and never touches
the working prefix. -/
theorem delete_bucket_frame (backend : PyStr → Except String Unit) (c : Conn)
    (bucket : PyStr)
    (h : backend (if bucket.isEmpty then c.bucketVal else bucket) = .ok ()) :
    delete_bucket backend c bucket
      = .ok ⟨if bucket.isEmpty || bucket == c.bucketVal then [] else c.bucketVal,
             c.cwdVal⟩ := by
  simp only [delete_bucket, h]
  by_cases hb : (bucket.isEmpty || bucket == c.bucketVal) = true <;> simp [hb]

/-- Witness for C10: deleting with an empty argument clears the default bucket
and preserves the working prefix. -/
theorem delete_bucket_frame_witness :
    delete_bucket (fun _ => .ok ()) ⟨"test-bucket".toList, "sub-folder/".toList⟩ []
      = .ok ⟨[], "sub-folder/".toList⟩ := by
  have h := delete_bucket_frame (fun _ => .ok ())
    ⟨"test-bucket".toList, "sub-folder/".toList⟩ [] rfl
  simpa using h

/-! ## Claims C4 and C7: the `list_objects` generator -/

/-- One page of a `list_objects_v2` reply as consumed by the generator loop:
its `Contents` keys, the `IsTruncated` flag and the `NextContinuationToken`. -/
structure ListPage where
  contents : List PyStr
  isTruncated : Bool
  nextToken : PyStr
deriving Repr

/-- The `while True` loop of the `list_objects` generator
(src/s3/s3.py:458-473), over an abstract page-fetch function (the
`list_objects_v2` call with `Bucket`/`Prefix`/`Delimiter`/`MaxKeys` fixed;
its argument is the `ContinuationToken` entry of `kwargs`, empty on the first
request).  The loop sets `kwargs["ContinuationToken"] = continuation_token`
only when the token is truthy (non-empty), so a previously-set token persists
otherwise — `kwTok` carries the entry, `ct` the loop variable.  Each iteration
yields the page's contents, stops when the page is not truncated, and
otherwise continues with the page's next token.  `fuel` bounds the number of
iterations; `none` models non-termination within the bound. -/
def listObjectsGo (fetch : PyStr → ListPage) :
    Nat → PyStr → PyStr → Option (List PyStr)
  | 0, _, _ => none
  | fuel + 1, kwTok, ct =>
    let kwTok2 := if ct.isEmpty then kwTok else ct
    let page := fetch kwTok2
    if page.isTruncated then
      (listObjectsGo fetch fuel kwTok2 page.nextToken).map
        (fun rest => page.contents ++ rest)
    else some page.contents

/-- The backend pages form a chain starting at continuation token `t`: each
page before the last reports truncation and carries a non-empty token under
which the backend serves the following page; the last page reports no
truncation. -/
def chainFrom (fetch : PyStr → ListPage) : PyStr → List (List PyStr) → Prop
  | _, [] => False
  | t, [p] => (fetch t).contents = p ∧ (fetch t).isTruncated = false
  | t, p :: q :: rest =>
    (fetch t).contents = p ∧ (fetch t).isTruncated = true ∧
    (fetch t).nextToken ≠ [] ∧ chainFrom fetch (fetch t).nextToken (q :: rest)

theorem listObjectsGo_chain (fetch : PyStr → ListPage) :
    ∀ (pages : List (List PyStr)) (t kwTok ct : PyStr),
      chainFrom fetch t pages → (if ct.isEmpty then kwTok else ct) = t →
      ∀ fuel, pages.length ≤ fuel →
        listObjectsGo fetch fuel kwTok ct = some pages.flatten
  | [], _, _, _, hchain, _, _, _ => absurd hchain not_false
  | [p], t, kwTok, ct, hchain, htok, fuel, hfuel => by
    obtain ⟨hc, htr⟩ := hchain
    cases fuel with
    | zero => exact absurd hfuel (by simp)
    | succ n =>
      simp only [listObjectsGo, htok, htr, hc]
      simp
  | p :: q :: rest, t, kwTok, ct, hchain, htok, fuel, hfuel => by
    obtain ⟨hc, htr, hne, hrest⟩ := hchain
    cases fuel with
    | zero => exact absurd hfuel (by simp)
    | succ n =>
      have hlen : (q :: rest).length ≤ n := by
        simpa [Nat.succ_le_succ_iff] using hfuel
      have hnext : (if ((fetch t).nextToken).isEmpty then t
          else (fetch t).nextToken) = (fetch t).nextToken := by
        simp [List.isEmpty_iff, hne]
      have ih := listObjectsGo_chain fetch (q :: rest) (fetch t).nextToken t
        (fetch t).nextToken hrest hnext n hlen
      simp only [listObjectsGo, htok, htr, if_true, ih, hc, Option.map_some]
      simp

/-- C4: over a backend holding its keys split across a chain of one or more
pages linked by truncation flags and continuation tokens, the `list_objects`
loop (empty delimiter and prefix fixed inside `fetch`) emits exactly the
concatenation of the pages' contents, in backend page order — every key under
the prefix exactly once, no duplicates, no omissions — issuing each follow-up
request with the previous page's continuation token and terminating at the
first non-truncated page. -/
theorem list_objects_pagination (fetch : PyStr → ListPage)
    (pages : List (List PyStr)) (fuel : Nat)
    (hchain : chainFrom fetch [] pages) (hfuel : pages.length ≤ fuel) :
    listObjectsGo fetch fuel [] [] = some pages.flatten :=
  listObjectsGo_chain fetch pages [] [] [] hchain rfl fuel hfuel

/-- A concrete two-page backend: the initial request returns two keys and a
continuation token, the follow-up returns one key and no truncation. -/
def twoPageFetch : PyStr → ListPage := fun t =>
  if t.isEmpty then ⟨["example.json".toList, "sub-folder/a.txt".toList],
    true, "token-1".toList⟩
  else ⟨["sub-folder/b.txt".toList], false, []⟩

/-- Witness for C4: three keys split over two pages are listed exactly, in
page order. -/
theorem list_objects_pagination_witness :
    listObjectsGo twoPageFetch 2 [] []
      = some ["example.json".toList, "sub-folder/a.txt".toList,
              "sub-folder/b.txt".toList] := by
  have h := list_objects_pagination twoPageFetch
    [["example.json".toList, "sub-folder/a.txt".toList],
     ["sub-folder/b.txt".toList]] 2
    ⟨rfl, rfl, by decide, rfl, rfl⟩ (by decide)
  simpa using h

/-- A suspended `list_objects` generator: `list_objects` is a Python generator
function, so CALLING it executes none of its body — it only packages the
arguments (the explicit `bucket` argument, the connector's default bucket, and
the page-fetch closure). -/
structure ListObjectsGen where
  bucketArg : PyStr
  defaultBucket : PyStr
  fetch : PyStr → ListPage

/-- Invoking `S3.list_objects` (src/s3/s3.py:431-457): per Python generator
semantics this cannot raise; it returns the suspended generator.  (The
`Except` layer records that invocation raises nothing.) -/
def list_objects_invoke (fetch : PyStr → ListPage)
    (bucketArg defaultBucket : PyStr) : Except String ListObjectsGen :=
  .ok ⟨bucketArg, defaultBucket, fetch⟩

/-- Pulling the first element of the generator: the body runs from the top —
`kwargs = {"Bucket": bucket or self.bucket}` and the emptiness check
(`raise Exception("Must set, or provide a bucket")`) execute BEFORE the first
`list_objects_v2` request. -/
def list_objects_run (g : ListObjectsGen) (fuel : Nat) :
    Except String (Option (List PyStr)) :=
  if (if g.bucketArg.isEmpty then g.defaultBucket else g.bucketArg).isEmpty then
    .error "Must set, or provide a bucket"
  else
    .ok (listObjectsGo g.fetch fuel [] [])

/-- A backend with no objects at all. -/
def emptyFetch : PyStr → ListPage := fun _ => ⟨[], false, []⟩

/-- C7, as stated, is false: with neither an explicit nor a default container,
*invoking* `list_objects` does not fail — it returns a generator (first
conjunct; the test suite itself notes "list_objects returns a generator, so we
need to peek in to find the error").  The failure only surfaces on the first
pull (second conjunct). -/
theorem list_objects_lazy_cx :
    list_objects_invoke emptyFetch [] [] = .ok ⟨[], [], emptyFetch⟩ ∧
    list_objects_run ⟨[], [], emptyFetch⟩ 1
      = .error "Must set, or provide a bucket" :=
  ⟨rfl, rfl⟩

/-- C7 (amended): with neither an explicit container nor a default available,
invoking `list_objects` succeeds (returns a suspended generator) and the call
fails with the no-container error upon pulling the first element; the check
still happens before any backend call — the first-pull outcome is the same
error for every backend whatsoever. -/
theorem list_objects_amended (fetch1 fetch2 : PyStr → ListPage)
    (ba db : PyStr) (fuel1 fuel2 : Nat)
    (h : (if ba.isEmpty then db else ba).isEmpty = true) :
    list_objects_invoke fetch1 ba db = .ok ⟨ba, db, fetch1⟩ ∧
    list_objects_run ⟨ba, db, fetch1⟩ fuel1
      = .error "Must set, or provide a bucket" ∧
    list_objects_run ⟨ba, db, fetch1⟩ fuel1
      = list_objects_run ⟨ba, db, fetch2⟩ fuel2 := by
  cases ba with
  | cons c cs => simp at h
  | nil =>
    have hdb : db = [] := by simpa [List.isEmpty_iff] using h
    subst hdb
    exact ⟨rfl, rfl, rfl⟩

/-- Witness for C7 (amended) at empty explicit and default container. -/
theorem list_objects_amended_witness :
    (if ([] : PyStr).isEmpty then ([] : PyStr) else ([] : PyStr)).isEmpty = true ∧
    list_objects_run ⟨[], [], emptyFetch⟩ 3
      = .error "Must set, or provide a bucket" :=
  ⟨by decide, (list_objects_amended emptyFetch emptyFetch [] [] 3 3 (by decide)).2.1⟩
